import Mathlib

/-!
Shallow embedding of `src/server.py`, an MCP server exposing four read-only
query tools over the dair-ai/emotion dataset, together with proofs of the
specification claims.

Modelling choices:
* A dataset row (`item["text"]`, `item["label"]`) is a `Record`; the dataset
  handle is a `List Record` in stored order.
* The Python dict `EMOTION_LABELS` is embedded as its ordered item list
  (Python dicts preserve insertion order, which `.items()` / `.values()`
  iteration depends on); dict indexing `EMOTION_LABELS[l]` is association
  lookup, with a missing key (`KeyError`) modelled as `none`.
* Every tool body sits inside `try/except` returning a JSON error payload
  `{"error": msg}`; this is embedded as `Except String R`, `.error msg`
  standing for the error payload.
* Python floats: `count / total * 100` is modelled in `ℚ`; `round(x, 2)` as
  rounding `x * 100` to the nearest integer over `ℚ`.
* The global `DATASET` cache is explicit state passing (`CacheState`), with
  the external `load_dataset("dair-ai/emotion", split="train")` call
  abstracted as a `fetch : Except String (List Record)` parameter.
* `random.sample(range(total_size), k)` is abstracted as an index-list
  parameter, constrained (in theorem hypotheses) by that function's contract:
  `k` distinct indices, each in `[0, total_size)`.
* Pydantic field validation (which runs before the tool body) is embedded as
  explicit `validate*` functions guarding the tool runners.
-/

set_option maxRecDepth 4000

attribute [local semireducible] Rat.mul Rat.inv Rat.add Rat.sub

/-- Equality of `Except` values is decidable componentwise; used to evaluate
concrete tool results in witnesses. -/
instance {ε α : Type} [DecidableEq ε] [DecidableEq α] : DecidableEq (Except ε α) := fun
  | .ok a, .ok b =>
    if h : a = b then .isTrue (by rw [h]) else .isFalse (by simp [h])
  | .ok _, .error _ => .isFalse (by simp)
  | .error _, .ok _ => .isFalse (by simp)
  | .error a, .error b =>
    if h : a = b then .isTrue (by rw [h]) else .isFalse (by simp [h])

namespace EmotionServer

/-- One dataset row: `{"text": ..., "label": ...}`. -/
structure Record where
  text : String
  label : Nat
deriving Repr, DecidableEq

abbrev Dataset := List Record

/-- The Python dict `EMOTION_LABELS = {0: "sadness", ..., 5: "surprise"}`,
as its ordered item list. -/
def EMOTION_LABELS : List (Nat × String) :=
  [(0, "sadness"), (1, "joy"), (2, "love"), (3, "anger"), (4, "fear"), (5, "surprise")]

/-- Dict indexing `EMOTION_LABELS[l]`: `none` models a `KeyError`. -/
def lookupLabel (l : Nat) : Option String :=
  (EMOTION_LABELS.find? (fun p => p.1 == l)).map (fun p => p.2)

/-- The `EmotionType(str, Enum)` from the source. -/
inductive EmotionType
  | sadness | joy | love | anger | fear | surprise
deriving Repr, DecidableEq

/-- The string value of an `EmotionType` member. -/
def EmotionType.str : EmotionType → String
  | .sadness => "sadness"
  | .joy => "joy"
  | .love => "love"
  | .anger => "anger"
  | .fear => "fear"
  | .surprise => "surprise"

/-- The (expected) integer label of each emotion under `EMOTION_LABELS`. -/
def EmotionType.lid : EmotionType → Nat
  | .sadness => 0
  | .joy => 1
  | .love => 2
  | .anger => 3
  | .fear => 4
  | .surprise => 5

/-- All six enum members, in declaration order. -/
def EmotionType.all : List EmotionType :=
  [.sadness, .joy, .love, .anger, .fear, .surprise]

/-- Python 3 `round` to the nearest integer, ties to even (banker's
rounding), over `ℚ`. -/
def pyRound (q : ℚ) : ℤ :=
  let fl : ℤ := Rat.floor q
  let frac : ℚ := q - (fl : ℚ)
  if frac < 1 / 2 then fl
  else if 1 / 2 < frac then fl + 1
  else if fl % 2 = 0 then fl else fl + 1

/-- Python `round(x, 2)` over `ℚ`: round `x * 100` to the nearest integer
(ties to even), then divide back. -/
def round2 (q : ℚ) : ℚ := ((pyRound (q * 100) : ℤ) : ℚ) / 100

/-- The per-tool percentage expression
`round((count / total * 100), 2) if total > 0 else 0`. -/
def pctOf (count total : Nat) : ℚ :=
  if 0 < total then round2 ((count : ℚ) / (total : ℚ) * 100) else 0

/-! ## Dataset cache (`_load_dataset`, global `DATASET`) -/

/-- The module-level `DATASET` global: `None` before the first successful load. -/
structure CacheState where
  DATASET : Option Dataset
deriving Repr, DecidableEq

/-- `_load_dataset()`: if the cache is unset, run the external fetch; a fetch
failure propagates and leaves `DATASET` unset (the Python assignment never
happens), a success stores the table. A set cache is returned as is. -/
def _load_dataset (fetch : Except String Dataset) (st : CacheState) :
    Except String Dataset × CacheState :=
  match st.DATASET with
  | some d => (.ok d, st)
  | none =>
    match fetch with
    | .ok d => (.ok d, ⟨some d⟩)
    | .error m => (.error m, st)

/-! ## Tool 2: `count_by_emotion` -/

/-- The `{emotion, count, total, percentage}` result object. -/
structure CountResult where
  emotion : String
  count : Nat
  total : Nat
  percentage : ℚ
deriving Repr, DecidableEq

/-- The label-resolution loop of `count_by_emotion`: scan
`EMOTION_LABELS.items()` in order for a value equal to the emotion, returning
the first matching key. -/
def findLabelId (emotion : String) : Option Nat :=
  (EMOTION_LABELS.find? (fun p => p.2 == emotion)).map (fun p => p.1)

/-- Body of the `count_by_emotion` tool (inside `try`), on a loaded dataset. -/
def count_by_emotion (ds : Dataset) (emotion : String) : Except String CountResult :=
  match findLabelId emotion with
  | none => .error ("Unknown emotion: " ++ emotion)
  | some label_id =>
    let count := ds.countP (fun item => item.label == label_id)
    let total := ds.length
    .ok ⟨emotion, count, total,
      if 0 < total then round2 ((count : ℚ) / (total : ℚ) * 100) else 0⟩

/-! ## Sample objects (`{text, emotion, label_id}`) -/

/-- One returned sample dict `{text, emotion, label_id}`. -/
structure Sample where
  text : String
  emotion : String
  label_id : Nat
deriving Repr, DecidableEq

/-! ## Tool 1: `get_sample` -/

/-- The `for idx in indices` loop of `get_sample`: look the index up in the
dataset and its label up in `EMOTION_LABELS`; a `KeyError` on either aborts
with the exception message. -/
def sampleLoop (ds : Dataset) : List Nat → Except String (List Sample)
  | [] => .ok []
  | idx :: rest =>
    match ds[idx]? with
    | none => .error "IndexError"
    | some item =>
      match lookupLabel item.label with
      | none => .error "KeyError"
      | some name =>
        match sampleLoop ds rest with
        | .error m => .error m
        | .ok tail => .ok (⟨item.text, name, item.label⟩ :: tail)

/-- Body of the `get_sample` tool (inside `try`), on a loaded dataset, with
`indices` standing for the value of
`random.sample(range(total_size), min(params.n, total_size))`. -/
def get_sample (ds : Dataset) (indices : List Nat) : Except String (List Sample) :=
  match sampleLoop ds indices with
  | .error m => .error ("Failed to get samples: " ++ m)
  | .ok samples => .ok samples

/-! ## Tool 3: `search_text` -/

/-- `{query, count, results}` response object. -/
structure SearchResult where
  query : String
  count : Nat
  results : List Sample
deriving Repr, DecidableEq

/-- Python `str.lower()`: lowercase each character. -/
def pyLower (s : String) : String := String.mk (s.data.map Char.toLower)

/-- Whether `needle` leads `hay` (the needle's characters open the list). -/
def listLeads : List Char → List Char → Bool
  | [], _ => true
  | _ :: _, [] => false
  | a :: as, b :: bs => a == b && listLeads as bs

/-- Python substring containment `needle in hay` over character lists. -/
def listHasSub (needle : List Char) : List Char → Bool
  | [] => needle.isEmpty
  | c :: rest => listLeads needle (c :: rest) || listHasSub needle rest

/-- The match test of the search loop: `query_lower in item["text"].lower()`. -/
def matchesQuery (query_lower : String) (item : Record) : Bool :=
  listHasSub query_lower.data (pyLower item.text).data

/-- The search loop: scan in stored order collecting matches, breaking once
`len(results) >= limit` after an append; `remaining` is `limit` minus what
has been collected so far. A matched record triggers `EMOTION_LABELS[label]`
before the break test, so an invalid label on a matched record aborts. -/
def searchLoop (query_lower : String) (remaining : Nat) :
    Dataset → Except String (List Sample)
  | [] => .ok []
  | item :: rest =>
    if matchesQuery query_lower item then
      match lookupLabel item.label with
      | none => .error "KeyError"
      | some name =>
        if remaining ≤ 1 then .ok [⟨item.text, name, item.label⟩]
        else
          match searchLoop query_lower (remaining - 1) rest with
          | .error m => .error m
          | .ok tail => .ok (⟨item.text, name, item.label⟩ :: tail)
    else searchLoop query_lower remaining rest

/-- Body of the `search_text` tool (inside `try`), on a loaded dataset. -/
def search_text (ds : Dataset) (query : String) (limit : Nat) :
    Except String SearchResult :=
  let query_lower := pyLower query
  match searchLoop query_lower limit ds with
  | .error m => .error ("Failed to search text: " ++ m)
  | .ok results => .ok ⟨query, results.length, results⟩

/-! ## Tool 4: `analyze_emotion_distribution` -/

/-- One `{emotion, count, percentage}` distribution entry. -/
structure DistEntry where
  emotion : String
  count : Nat
  percentage : ℚ
deriving Repr, DecidableEq

/-- `{total_samples, distribution}` response object. -/
structure DistResult where
  total_samples : Nat
  distribution : List DistEntry
deriving Repr, DecidableEq

/-- `emotion_counts = {label: 0 for label in EMOTION_LABELS.values()}`:
a zero counter per emotion name, in the dict's value order. -/
def initCounts : List (String × Nat) := EMOTION_LABELS.map (fun p => (p.2, 0))

/-- `emotion_counts[name] += 1` on an association list (keys are unique). -/
def bump (name : String) : List (String × Nat) → List (String × Nat)
  | [] => []
  | (k, v) :: rest =>
    if k == name then (k, v + 1) :: rest else (k, v) :: bump name rest

/-- The counting loop of `analyze_emotion_distribution`: resolve each record's
label (a `KeyError` aborts) and increment its counter. -/
def countsLoop : Dataset → List (String × Nat) → Except String (List (String × Nat))
  | [], counts => .ok counts
  | item :: rest, counts =>
    match lookupLabel item.label with
    | none => .error "KeyError"
    | some name => countsLoop rest (bump name counts)

/-- Python string `<`: lexicographic comparison of the code-point sequences. -/
def strLtB : List Char → List Char → Bool
  | [], [] => false
  | [], _ :: _ => true
  | _ :: _, [] => false
  | a :: as, b :: bs => if a < b then true else if b < a then false else strLtB as bs

/-- The comparison `sorted` uses on the `(emotion, count)` pairs: ascending by
key (keys are unique, so comparing the pairs equals comparing the keys). -/
def keyLeB (a b : String × Nat) : Bool := !(strLtB b.1.data a.1.data)

/-- `sorted(emotion_counts.items())`: ascending stable comparison sort,
embedded as insertion sort. -/
def sortedItems (l : List (String × Nat)) : List (String × Nat) :=
  List.insertionSort (fun a b => keyLeB a b = true) l

/-- Body of the `analyze_emotion_distribution` tool (inside `try`), on a
loaded dataset. -/
def analyze_emotion_distribution (ds : Dataset) : Except String DistResult :=
  match countsLoop ds initCounts with
  | .error m => .error ("Failed to analyze distribution: " ++ m)
  | .ok counts =>
    let total := ds.length
    .ok ⟨total,
      (sortedItems counts).map (fun p =>
        ⟨p.1, p.2, if 0 < total then round2 ((p.2 : ℚ) / (total : ℚ) * 100) else 0⟩)⟩

/-! ## Pydantic input validation (runs before each tool body) -/

/-- `GetSampleInput.n : int, ge=1, le=100`. -/
def validateN (n : Int) : Bool := 1 ≤ n && n ≤ 100

/-- `SearchTextInput.limit : int, ge=1, le=100`. -/
def validateLimit (limit : Int) : Bool := 1 ≤ limit && limit ≤ 100

/-- Python `str.strip()`: drop surrounding whitespace. -/
def pyStrip (s : String) : String :=
  String.mk (((s.data.dropWhile Char.isWhitespace).reverse.dropWhile
    Char.isWhitespace).reverse)

/-- `SearchTextInput.query : str, min_length=1, max_length=200`, with
`str_strip_whitespace=True` stripping surrounding whitespace first;
returns the stripped query the tool body then receives. -/
def validateQuery (query : String) : Option String :=
  let stripped := pyStrip query
  if 1 ≤ stripped.length && stripped.length ≤ 200 then some stripped else none

/-- `CountByEmotionInput.emotion : EmotionType`: the string must be the value
of one of the six enum members. -/
def validateEmotion (s : String) : Option EmotionType :=
  if s = "sadness" then some .sadness
  else if s = "joy" then some .joy
  else if s = "love" then some .love
  else if s = "anger" then some .anger
  else if s = "fear" then some .fear
  else if s = "surprise" then some .surprise
  else none

/-! ## Tool runners: validation, then cache load, then body

Pydantic rejects an invalid input before the tool function runs, so an
invalid input yields a Validation Error with the cache state untouched
(no data access). A cache-load failure inside the `try` yields the tool's
`{"error": "Failed to ...: msg"}` payload. -/

/-- The `get_sample` tool at the request boundary. -/
def run_get_sample (fetch : Except String Dataset) (st : CacheState)
    (n : Int) (indices : List Nat) : Except String (List Sample) × CacheState :=
  if validateN n then
    match _load_dataset fetch st with
    | (.error m, st') => (.error ("Failed to get samples: " ++ m), st')
    | (.ok ds, st') => (get_sample ds indices, st')
  else (.error "Validation Error: n", st)

/-- The `count_by_emotion` tool at the request boundary. -/
def run_count_by_emotion (fetch : Except String Dataset) (st : CacheState)
    (emotion : String) : Except String CountResult × CacheState :=
  match validateEmotion emotion with
  | none => (.error "Validation Error: emotion", st)
  | some e =>
    match _load_dataset fetch st with
    | (.error m, st') => (.error ("Failed to count by emotion: " ++ m), st')
    | (.ok ds, st') => (count_by_emotion ds e.str, st')

/-- The `search_text` tool at the request boundary. -/
def run_search_text (fetch : Except String Dataset) (st : CacheState)
    (query : String) (limit : Int) : Except String SearchResult × CacheState :=
  match validateQuery query with
  | none => (.error "Validation Error: query", st)
  | some stripped =>
    if validateLimit limit then
      match _load_dataset fetch st with
      | (.error m, st') => (.error ("Failed to search text: " ++ m), st')
      | (.ok ds, st') => (search_text ds stripped limit.toNat, st')
    else (.error "Validation Error: limit", st)

/-- The `analyze_emotion_distribution` tool at the request boundary. -/
def run_analyze (fetch : Except String Dataset) (st : CacheState) :
    Except String DistResult × CacheState :=
  match _load_dataset fetch st with
  | (.error m, st') => (.error ("Failed to analyze distribution: " ++ m), st')
  | (.ok ds, st') => (analyze_emotion_distribution ds, st')

/-! ## Derived counting notions used in theorem statements -/

/-- The number of records whose label resolves, under `EMOTION_LABELS`, to the
given emotion name. -/
def resolvedCount (ds : Dataset) (name : String) : Nat :=
  ds.countP (fun r => lookupLabel r.label == some name)

/-- The number of records carrying a given integer label. -/
def labelCount (ds : Dataset) (k : Nat) : Nat :=
  ds.countP (fun r => r.label == k)

/-- The data-model invariant: every record's label is a key of
`EMOTION_LABELS`. -/
def ValidLabels (ds : Dataset) : Prop := ∀ r ∈ ds, r.label < 6

instance (ds : Dataset) : Decidable (ValidLabels ds) := by
  unfold ValidLabels
  infer_instance

/-- The concrete four-record dataset of the specification's test scenario. -/
def specDataset : Dataset :=
  [⟨"i am so happy", 1⟩, ⟨"i feel sad", 0⟩, ⟨"i love this", 2⟩,
   ⟨"i am happy again", 1⟩]

/-- The correspondence between a returned sample dict and the record it was
built from. -/
def SampleOf (s : Sample) (r : Record) : Prop :=
  s.text = r.text ∧ s.label_id = r.label ∧ lookupLabel r.label = some s.emotion

/-! ## Lemmas about the label mapping -/

theorem findLabelId_str : ∀ e : EmotionType, findLabelId e.str = some e.lid := by
  intro e
  cases e <;> rfl

theorem lookupLabel_eq_some_str (l : Nat) (e : EmotionType) :
    lookupLabel l = some e.str ↔ l = e.lid := by
  cases e <;>
    (rcases l with _ | _ | _ | _ | _ | _ | l <;>
      simp [lookupLabel, EMOTION_LABELS, EmotionType.str, EmotionType.lid, List.find?])

theorem lookupLabel_isSome (l : Nat) : (lookupLabel l).isSome ↔ l < 6 := by
  rcases l with _ | _ | _ | _ | _ | _ | l <;>
    simp [lookupLabel, EMOTION_LABELS, List.find?]

theorem resolvedCount_eq (ds : Dataset) (e : EmotionType) :
    resolvedCount ds e.str = labelCount ds e.lid := by
  unfold resolvedCount labelCount
  apply List.countP_congr
  intro r _
  simp [lookupLabel_eq_some_str r.label e]

/-- Records with labels `0..5` partition a dataset satisfying the data-model
invariant. -/
theorem labelCount_partition (ds : Dataset) (hv : ValidLabels ds) :
    labelCount ds 0 + labelCount ds 1 + labelCount ds 2 + labelCount ds 3
      + labelCount ds 4 + labelCount ds 5 = ds.length := by
  induction ds with
  | nil => rfl
  | cons r rs ih =>
    have h6 : r.label < 6 := hv r (by simp)
    have ih' := ih (fun x hx => hv x (by simp [hx]))
    simp only [labelCount, List.countP_cons, List.length_cons] at ih' ⊢
    have hcase : r.label = 0 ∨ r.label = 1 ∨ r.label = 2 ∨ r.label = 3 ∨
        r.label = 4 ∨ r.label = 5 := by omega
    rcases hcase with h | h | h | h | h | h <;> simp [h] <;> omega

/-- Evaluation of the `count_by_emotion` body on any member of the emotion
enum: the label always resolves and the result fields are the match count,
the dataset size and the rounded percentage. -/
theorem count_by_emotion_eq (ds : Dataset) (e : EmotionType) :
    count_by_emotion ds e.str =
      .ok ⟨e.str, resolvedCount ds e.str, ds.length,
        pctOf (resolvedCount ds e.str) ds.length⟩ := by
  simp [count_by_emotion, findLabelId_str, pctOf, resolvedCount_eq, labelCount]

theorem forall2_mem_left {α β : Type} {R : α → β → Prop} :
    ∀ {as : List α} {bs : List β}, List.Forall₂ R as bs →
      ∀ a ∈ as, ∃ b ∈ bs, R a b := by
  intro as bs h
  induction h with
  | nil => simp
  | cons hr _ ih =>
    intro a ha
    rcases List.mem_cons.mp ha with h | h
    · exact ⟨_, by simp, h ▸ hr⟩
    · obtain ⟨b, hb, hR⟩ := ih a h
      exact ⟨b, by simp [hb], hR⟩

/-- The search loop, run with capacity `rem ≥ 1` on a dataset with valid
labels, succeeds and returns samples corresponding, in order, to the first
`rem` records (in stored order) that match the query. -/
theorem searchLoop_eq (ql : String) (ds : Dataset) :
    ∀ rem, 1 ≤ rem → ValidLabels ds →
      ∃ out, searchLoop ql rem ds = .ok out ∧
        List.Forall₂ SampleOf out ((ds.filter (matchesQuery ql)).take rem) := by
  induction ds with
  | nil => exact fun rem _ _ => ⟨[], rfl, by simp⟩
  | cons item rest ih =>
    intro rem h1 hv
    have hvr : ValidLabels rest := fun x hx => hv x (List.mem_cons_of_mem _ hx)
    by_cases hm : matchesQuery ql item
    · have h6 : item.label < 6 := hv item (List.mem_cons_self _ _)
      obtain ⟨name, hname⟩ :=
        Option.isSome_iff_exists.mp ((lookupLabel_isSome item.label).mpr h6)
      by_cases hrem : rem ≤ 1
      · have hr1 : rem = 1 := by omega
        subst hr1
        refine ⟨[⟨item.text, name, item.label⟩], by simp [searchLoop, hm, hname], ?_⟩
        simp only [List.filter_cons, hm, if_pos, List.take_succ_cons, List.take_zero]
        exact List.Forall₂.cons ⟨rfl, rfl, hname⟩ (by simp)
      · obtain ⟨out', hout', hrel⟩ := ih (rem - 1) (by omega) hvr
        refine ⟨⟨item.text, name, item.label⟩ :: out', ?_, ?_⟩
        · simp [searchLoop, hm, hname, hrem, hout']
        · have htake : ((item :: rest).filter (matchesQuery ql)).take rem
              = item :: ((rest.filter (matchesQuery ql)).take (rem - 1)) := by
            obtain ⟨rem', hr⟩ : ∃ rem', rem = rem' + 1 := ⟨rem - 1, by omega⟩
            subst hr
            simp [List.filter_cons, hm]
          rw [htake]
          exact List.Forall₂.cons ⟨rfl, rfl, hname⟩ hrel
    · obtain ⟨out, hout, hrel⟩ := ih rem h1 hvr
      refine ⟨out, ?_, ?_⟩
      · simpa [searchLoop, hm] using hout
      · simpa [List.filter_cons, hm] using hrel

/-- The sample loop, run on in-range indices over a dataset with valid
labels, succeeds and returns one sample per index, in draw order, each built
from the record at its index. -/
theorem sampleLoop_eq (ds : Dataset) :
    ∀ idxs : List Nat, (∀ i ∈ idxs, i < ds.length) → ValidLabels ds →
      ∃ out, sampleLoop ds idxs = .ok out ∧
        List.Forall₂ (fun (s : Sample) (i : Nat) =>
          ∃ h : i < ds.length, SampleOf s (ds.get ⟨i, h⟩)) out idxs := by
  intro idxs
  induction idxs with
  | nil => exact fun _ _ => ⟨[], rfl, List.Forall₂.nil⟩
  | cons i rest ih =>
    intro hlt hv
    have hi : i < ds.length := hlt i (List.mem_cons_self _ _)
    have hget : ds[i]? = some ds[i] := List.getElem?_eq_getElem hi
    have hmem : ds[i] ∈ ds := List.getElem_mem hi
    have h6 : (ds[i]).label < 6 := hv _ hmem
    obtain ⟨name, hname⟩ :=
      Option.isSome_iff_exists.mp ((lookupLabel_isSome _).mpr h6)
    obtain ⟨tail, htail, hrel⟩ :=
      ih (fun j hj => hlt j (List.mem_cons_of_mem _ hj)) hv
    refine ⟨⟨ds[i].text, name, ds[i].label⟩ :: tail, ?_, ?_⟩
    · simp [sampleLoop, hget, hname, htail]
    · exact List.Forall₂.cons ⟨hi, rfl, rfl, hname⟩ hrel

theorem labelCount_cons (r : Record) (rs : Dataset) (k : Nat) :
    labelCount (r :: rs) k = labelCount rs k + (if r.label = k then 1 else 0) := by
  simp [labelCount, List.countP_cons]

/-- Running the counting loop of `analyze_emotion_distribution` over a
dataset with valid labels adds, to each accumulator entry, the number of
records carrying the matching label. -/
theorem countsLoop_eval (ds : Dataset) : ValidLabels ds → ∀ a b c d e f : Nat,
    countsLoop ds
      [("sadness", a), ("joy", b), ("love", c), ("anger", d), ("fear", e),
       ("surprise", f)]
    = .ok [("sadness", a + labelCount ds 0), ("joy", b + labelCount ds 1),
           ("love", c + labelCount ds 2), ("anger", d + labelCount ds 3),
           ("fear", e + labelCount ds 4), ("surprise", f + labelCount ds 5)] := by
  induction ds with
  | nil =>
    intro _ a b c d e f
    simp [countsLoop, labelCount]
  | cons r rs ih =>
    obtain ⟨rt, rl⟩ := r
    intro hv a b c d e f
    have h6 : rl < 6 := hv ⟨rt, rl⟩ (List.mem_cons_self _ _)
    have hvr : ValidLabels rs := fun x hx => hv x (List.mem_cons_of_mem _ hx)
    interval_cases rl
    · rw [show countsLoop (⟨rt, 0⟩ :: rs)
          [("sadness", a), ("joy", b), ("love", c), ("anger", d), ("fear", e),
           ("surprise", f)]
          = countsLoop rs
          [("sadness", a + 1), ("joy", b), ("love", c), ("anger", d), ("fear", e),
           ("surprise", f)] from rfl, ih hvr]
      simp [labelCount_cons]
      omega
    · rw [show countsLoop (⟨rt, 1⟩ :: rs)
          [("sadness", a), ("joy", b), ("love", c), ("anger", d), ("fear", e),
           ("surprise", f)]
          = countsLoop rs
          [("sadness", a), ("joy", b + 1), ("love", c), ("anger", d), ("fear", e),
           ("surprise", f)] from rfl, ih hvr]
      simp [labelCount_cons]
      omega
    · rw [show countsLoop (⟨rt, 2⟩ :: rs)
          [("sadness", a), ("joy", b), ("love", c), ("anger", d), ("fear", e),
           ("surprise", f)]
          = countsLoop rs
          [("sadness", a), ("joy", b), ("love", c + 1), ("anger", d), ("fear", e),
           ("surprise", f)] from rfl, ih hvr]
      simp [labelCount_cons]
      omega
    · rw [show countsLoop (⟨rt, 3⟩ :: rs)
          [("sadness", a), ("joy", b), ("love", c), ("anger", d), ("fear", e),
           ("surprise", f)]
          = countsLoop rs
          [("sadness", a), ("joy", b), ("love", c), ("anger", d + 1), ("fear", e),
           ("surprise", f)] from rfl, ih hvr]
      simp [labelCount_cons]
      omega
    · rw [show countsLoop (⟨rt, 4⟩ :: rs)
          [("sadness", a), ("joy", b), ("love", c), ("anger", d), ("fear", e),
           ("surprise", f)]
          = countsLoop rs
          [("sadness", a), ("joy", b), ("love", c), ("anger", d), ("fear", e + 1),
           ("surprise", f)] from rfl, ih hvr]
      simp [labelCount_cons]
      omega
    · rw [show countsLoop (⟨rt, 5⟩ :: rs)
          [("sadness", a), ("joy", b), ("love", c), ("anger", d), ("fear", e),
           ("surprise", f)]
          = countsLoop rs
          [("sadness", a), ("joy", b), ("love", c), ("anger", d), ("fear", e),
           ("surprise", f + 1)] from rfl, ih hvr]
      simp [labelCount_cons]
      omega

/-- Evaluation of the `analyze_emotion_distribution` body on a dataset with
valid labels: one entry per emotion, in ascending name order. -/
theorem analyze_eq (ds : Dataset) (hv : ValidLabels ds) :
    analyze_emotion_distribution ds = .ok ⟨ds.length,
      [⟨"anger", labelCount ds 3, pctOf (labelCount ds 3) ds.length⟩,
       ⟨"fear", labelCount ds 4, pctOf (labelCount ds 4) ds.length⟩,
       ⟨"joy", labelCount ds 1, pctOf (labelCount ds 1) ds.length⟩,
       ⟨"love", labelCount ds 2, pctOf (labelCount ds 2) ds.length⟩,
       ⟨"sadness", labelCount ds 0, pctOf (labelCount ds 0) ds.length⟩,
       ⟨"surprise", labelCount ds 5, pctOf (labelCount ds 5) ds.length⟩]⟩ := by
  have h := countsLoop_eval ds hv 0 0 0 0 0 0
  unfold analyze_emotion_distribution
  rw [show initCounts
      = [("sadness", 0), ("joy", 0), ("love", 0), ("anger", 0), ("fear", 0),
         ("surprise", 0)] from rfl, h]
  show (Except.ok
      (⟨ds.length,
        (sortedItems
          [("sadness", 0 + labelCount ds 0), ("joy", 0 + labelCount ds 1),
           ("love", 0 + labelCount ds 2), ("anger", 0 + labelCount ds 3),
           ("fear", 0 + labelCount ds 4), ("surprise", 0 + labelCount ds 5)]).map
          (fun p => ⟨p.1, p.2,
            if 0 < ds.length then round2 ((p.2 : ℚ) / (ds.length : ℚ) * 100)
            else 0⟩)⟩ : DistResult) : Except String DistResult) = _
  rw [show sortedItems
      [("sadness", 0 + labelCount ds 0), ("joy", 0 + labelCount ds 1),
       ("love", 0 + labelCount ds 2), ("anger", 0 + labelCount ds 3),
       ("fear", 0 + labelCount ds 4), ("surprise", 0 + labelCount ds 5)]
      = [("anger", 0 + labelCount ds 3), ("fear", 0 + labelCount ds 4),
         ("joy", 0 + labelCount ds 1), ("love", 0 + labelCount ds 2),
         ("sadness", 0 + labelCount ds 0), ("surprise", 0 + labelCount ds 5)]
    from rfl]
  simp [pctOf]

theorem validateEmotion_str (e : EmotionType) : validateEmotion e.str = some e := by
  cases e <;> rfl

theorem except_ok_or_error {ε α : Type} (x : Except ε α) :
    (∃ r, x = .ok r) ∨ (∃ m, x = .error m) := by
  cases x with
  | ok r => exact .inl ⟨r, rfl⟩
  | error m => exact .inr ⟨m, rfl⟩

/-- If the counting loop succeeds, every scanned label was a key of
`EMOTION_LABELS`. -/
theorem countsLoop_ok_valid : ∀ (ds : Dataset) (counts out : List (String × Nat)),
    countsLoop ds counts = .ok out → ValidLabels ds := by
  intro ds
  induction ds with
  | nil =>
    intro counts out _ r hr
    simp at hr
  | cons item rest ih =>
    intro counts out h r hr
    cases hl : lookupLabel item.label with
    | none => simp [countsLoop, hl] at h
    | some name =>
      simp only [countsLoop, hl] at h
      rcases List.mem_cons.mp hr with h1 | h1
      · subst h1
        exact (lookupLabel_isSome r.label).mp (by rw [hl]; rfl)
      · exact ih _ _ h r h1

/-- `analyze_emotion_distribution` succeeds exactly on datasets satisfying
the label invariant; an unknown label code inside the scan is caught and
surfaces as a structured error rather than a success or a crash. -/
theorem analyze_ok_iff (ds : Dataset) :
    (∃ r, analyze_emotion_distribution ds = .ok r) ↔ ValidLabels ds := by
  constructor
  · rintro ⟨r, hr⟩
    cases hcl : countsLoop ds initCounts with
    | error m =>
      unfold analyze_emotion_distribution at hr
      rw [hcl] at hr
      exact Except.noConfusion hr
    | ok counts => exact countsLoop_ok_valid ds initCounts counts hcl
  · intro hv
    exact ⟨_, analyze_eq ds hv⟩

/-! ## Claim theorems -/

/-- C1: for every emotion name in the six-name set, `count_by_emotion`
returns `{emotion, count, total, percentage}` where `count` is the number of
records whose label maps to that emotion under `EMOTION_LABELS`, `total` is
the dataset size, and `percentage` is `round(count / total * 100, 2)` when
`total > 0` and `0` when `total = 0`. -/
theorem count_by_emotion_spec (ds : Dataset) (e : EmotionType) :
    count_by_emotion ds e.str =
      .ok ⟨e.str, resolvedCount ds e.str, ds.length,
        if 0 < ds.length then
          round2 ((resolvedCount ds e.str : ℚ) / (ds.length : ℚ) * 100)
        else 0⟩ := by
  rw [count_by_emotion_eq]
  simp [pctOf]

/-- C10: for every member of the emotion enum, the linear scan of
`EMOTION_LABELS.items()` finds a label id, so the internal
`Unknown emotion` error branch of `count_by_emotion` is unreachable. -/
theorem unknown_emotion_unreachable (e : EmotionType) (ds : Dataset) :
    (findLabelId e.str).isSome = true ∧
      ∀ msg, count_by_emotion ds e.str ≠ .error msg := by
  constructor
  · rw [findLabelId_str]; rfl
  · intro msg h
    rw [count_by_emotion_eq] at h
    exact Except.noConfusion h

/-- C8: on a dataset satisfying the data-model invariant (every label is a
key of `EMOTION_LABELS`), every `count_by_emotion` call succeeds, the six
counts sum to the dataset size, and each result reports that size as
`total`. -/
theorem count_partition_spec (ds : Dataset) (hv : ValidLabels ds) :
    ∃ res : EmotionType → CountResult,
      (∀ e, count_by_emotion ds e.str = .ok (res e)) ∧
      (EmotionType.all.map fun e => (res e).count).sum = ds.length ∧
      ∀ e, (res e).total = ds.length := by
  refine ⟨fun e => ⟨e.str, resolvedCount ds e.str, ds.length,
    pctOf (resolvedCount ds e.str) ds.length⟩,
    fun e => count_by_emotion_eq ds e, ?_, fun e => rfl⟩
  simp only [EmotionType.all, List.map_cons, List.map_nil, List.sum_cons,
    List.sum_nil]
  rw [resolvedCount_eq ds .sadness, resolvedCount_eq ds .joy,
    resolvedCount_eq ds .love, resolvedCount_eq ds .anger,
    resolvedCount_eq ds .fear, resolvedCount_eq ds .surprise]
  have h := labelCount_partition ds hv
  simp only [EmotionType.lid]
  omega

/-- C2: for every query and every limit in `[1, 100]`, on a dataset with
valid labels, `search_text` returns exactly the first
`min(limit, number of matching records)` records, in stored order, whose
text contains the query case-insensitively; every returned text contains the
query case-insensitively, at most `limit` results are returned, and the
returned `count` equals the length of the results list. -/
theorem search_text_spec (ds : Dataset) (query : String) (limit : Nat)
    (h1 : 1 ≤ limit) (h2 : limit ≤ 100) (hv : ValidLabels ds) :
    ∃ results,
      search_text ds query limit = .ok ⟨query, results.length, results⟩ ∧
      List.Forall₂ SampleOf results
        ((ds.filter (matchesQuery (pyLower query))).take limit) ∧
      results.length = min limit (ds.countP (matchesQuery (pyLower query))) ∧
      results.length ≤ limit ∧
      ∀ s ∈ results, listHasSub (pyLower query).data (pyLower s.text).data := by
  obtain ⟨out, hout, hrel⟩ := searchLoop_eq (pyLower query) ds limit h1 hv
  refine ⟨out, ?_, hrel, ?_, ?_, ?_⟩
  · simp [search_text, hout]
  · rw [List.Forall₂.length_eq hrel, List.length_take,
      List.countP_eq_length_filter]
  · rw [List.Forall₂.length_eq hrel, List.length_take]
    exact min_le_left _ _
  · intro s hs
    obtain ⟨r, hr, hstext, _, _⟩ := forall2_mem_left hrel s hs
    have hrf : r ∈ ds.filter (matchesQuery (pyLower query)) :=
      List.take_subset _ _ hr
    have hmatch : matchesQuery (pyLower query) r := List.of_mem_filter hrf
    rw [hstext]
    exact hmatch

/-- Witness for C2: the search property at the specification's concrete
scenario `search_text("happy", limit=10)`. -/
theorem search_text_spec_witness :
    (1 ≤ 10 ∧ 10 ≤ 100 ∧ ValidLabels specDataset) ∧
      ∃ results,
        search_text specDataset "happy" 10 = .ok ⟨"happy", results.length, results⟩ ∧
        List.Forall₂ SampleOf results
          ((specDataset.filter (matchesQuery (pyLower "happy"))).take 10) ∧
        results.length =
          min 10 (specDataset.countP (matchesQuery (pyLower "happy"))) ∧
        results.length ≤ 10 ∧
        ∀ s ∈ results, listHasSub (pyLower "happy").data (pyLower s.text).data :=
  ⟨⟨by decide, by decide, by decide⟩,
    search_text_spec specDataset "happy" 10 (by decide) (by decide) (by decide)⟩

/-- C4: for every `n` in `[1, 100]`, with `indices` the value of
`random.sample(range(total_size), min(n, total_size))` — that is, any list of
distinct in-range indices of length `min(n, total_size)` — `get_sample`
returns exactly `min(n, total_size)` items, each item's text and label taken
from the record at its drawn index with the emotion name given by
`EMOTION_LABELS`; on an empty dataset the result is an empty list, not an
error. -/
theorem get_sample_spec (ds : Dataset) (indices : List Nat) (n : Nat)
    (hn1 : 1 ≤ n) (hn2 : n ≤ 100) (hnd : indices.Nodup)
    (hlt : ∀ i ∈ indices, i < ds.length)
    (hlen : indices.length = min n ds.length) (hv : ValidLabels ds) :
    ∃ samples, get_sample ds indices = .ok samples ∧
      samples.length = min n ds.length ∧
      List.Forall₂ (fun (s : Sample) (i : Nat) =>
        ∃ h : i < ds.length, SampleOf s (ds.get ⟨i, h⟩)) samples indices ∧
      (ds.length = 0 → samples = []) := by
  obtain ⟨out, hout, hrel⟩ := sampleLoop_eq ds indices hlt hv
  have hlen' : out.length = min n ds.length := by
    rw [List.Forall₂.length_eq hrel, hlen]
  refine ⟨out, by simp [get_sample, hout], hlen', hrel, ?_⟩
  intro h0
  rw [← List.length_eq_zero]
  rw [hlen', h0]
  omega

/-- Witness for C4: drawing the two distinct indices `[2, 0]` with `n = 2`
from the specification's concrete four-record dataset. -/
theorem get_sample_spec_witness :
    (1 ≤ 2 ∧ 2 ≤ 100 ∧ List.Nodup [2, 0] ∧
      (∀ i ∈ [2, 0], i < specDataset.length) ∧
      List.length [2, 0] = min 2 specDataset.length ∧ ValidLabels specDataset) ∧
      ∃ samples, get_sample specDataset [2, 0] = .ok samples ∧
        samples.length = min 2 specDataset.length ∧
        List.Forall₂ (fun (s : Sample) (i : Nat) =>
          ∃ h : i < specDataset.length, SampleOf s (specDataset.get ⟨i, h⟩))
          samples [2, 0] ∧
        (specDataset.length = 0 → samples = []) :=
  ⟨⟨by decide, by decide, by decide, by decide, by decide, by decide⟩,
    get_sample_spec specDataset [2, 0] 2 (by decide) (by decide) (by decide)
      (by decide) (by decide) (by decide)⟩

/-- C3: on a dataset with valid labels,
`analyze_emotion_distribution` returns exactly six distribution entries, one
per emotion name, sorted ascending (anger, fear, joy, love, sadness,
surprise), counting zero for absent emotions; each entry carries the number
of records resolving to it and its rounded percentage (`0` on an empty
dataset), and `total_samples` equals the sum of the six counts. -/
theorem analyze_distribution_spec (ds : Dataset) (hv : ValidLabels ds) :
    analyze_emotion_distribution ds = .ok ⟨ds.length,
      [⟨"anger", resolvedCount ds "anger",
          pctOf (resolvedCount ds "anger") ds.length⟩,
       ⟨"fear", resolvedCount ds "fear",
          pctOf (resolvedCount ds "fear") ds.length⟩,
       ⟨"joy", resolvedCount ds "joy",
          pctOf (resolvedCount ds "joy") ds.length⟩,
       ⟨"love", resolvedCount ds "love",
          pctOf (resolvedCount ds "love") ds.length⟩,
       ⟨"sadness", resolvedCount ds "sadness",
          pctOf (resolvedCount ds "sadness") ds.length⟩,
       ⟨"surprise", resolvedCount ds "surprise",
          pctOf (resolvedCount ds "surprise") ds.length⟩]⟩ ∧
    resolvedCount ds "anger" + resolvedCount ds "fear" + resolvedCount ds "joy"
      + resolvedCount ds "love" + resolvedCount ds "sadness"
      + resolvedCount ds "surprise" = ds.length := by
  have ha : resolvedCount ds "anger" = labelCount ds 3 := resolvedCount_eq ds .anger
  have hf : resolvedCount ds "fear" = labelCount ds 4 := resolvedCount_eq ds .fear
  have hj : resolvedCount ds "joy" = labelCount ds 1 := resolvedCount_eq ds .joy
  have hl : resolvedCount ds "love" = labelCount ds 2 := resolvedCount_eq ds .love
  have hs : resolvedCount ds "sadness" = labelCount ds 0 := resolvedCount_eq ds .sadness
  have hu : resolvedCount ds "surprise" = labelCount ds 5 :=
    resolvedCount_eq ds .surprise
  constructor
  · rw [ha, hf, hj, hl, hs, hu]
    exact analyze_eq ds hv
  · have hp := labelCount_partition ds hv
    omega

/-- Witness for C3: the distribution property at the specification's concrete
four-record dataset. -/
theorem analyze_distribution_spec_witness :
    ValidLabels specDataset ∧
      (analyze_emotion_distribution specDataset = .ok ⟨specDataset.length,
        [⟨"anger", resolvedCount specDataset "anger",
            pctOf (resolvedCount specDataset "anger") specDataset.length⟩,
         ⟨"fear", resolvedCount specDataset "fear",
            pctOf (resolvedCount specDataset "fear") specDataset.length⟩,
         ⟨"joy", resolvedCount specDataset "joy",
            pctOf (resolvedCount specDataset "joy") specDataset.length⟩,
         ⟨"love", resolvedCount specDataset "love",
            pctOf (resolvedCount specDataset "love") specDataset.length⟩,
         ⟨"sadness", resolvedCount specDataset "sadness",
            pctOf (resolvedCount specDataset "sadness") specDataset.length⟩,
         ⟨"surprise", resolvedCount specDataset "surprise",
            pctOf (resolvedCount specDataset "surprise") specDataset.length⟩]⟩ ∧
      resolvedCount specDataset "anger" + resolvedCount specDataset "fear"
        + resolvedCount specDataset "joy" + resolvedCount specDataset "love"
        + resolvedCount specDataset "sadness"
        + resolvedCount specDataset "surprise" = specDataset.length) :=
  ⟨by decide, analyze_distribution_spec specDataset (by decide)⟩

/-- C7: the dataset cache loads at most once per process: a first successful
load populates the cache, any call on a populated cache returns the same
table without consulting the fetch, a failed load surfaces the failure and
leaves the cache uninitialized, and a later call after a failure retries and
can succeed. -/
theorem load_dataset_cache_spec (d ds : Dataset) (m : String) (st : CacheState)
    (fetch : Except String Dataset) (h : st.DATASET = some ds) :
    _load_dataset (.ok d) ⟨none⟩ = (.ok d, ⟨some d⟩) ∧
    _load_dataset fetch st = (.ok ds, st) ∧
    _load_dataset (.error m) ⟨none⟩ = (.error m, ⟨none⟩) ∧
    _load_dataset (.ok d) ((_load_dataset (.error m) ⟨none⟩).2) = (.ok d, ⟨some d⟩) := by
  obtain ⟨o⟩ := st
  simp only at h
  subst h
  exact ⟨rfl, rfl, rfl, rfl⟩

/-- Witness for C7: the cache contract at a concrete loaded state. -/
theorem load_dataset_cache_spec_witness :
    (CacheState.mk (some specDataset)).DATASET = some specDataset ∧
      (_load_dataset (.ok []) ⟨none⟩ = (.ok [], ⟨some []⟩) ∧
      _load_dataset (.error "boom") ⟨some specDataset⟩
        = (.ok specDataset, ⟨some specDataset⟩) ∧
      _load_dataset (.error "boom") ⟨none⟩ = (.error "boom", ⟨none⟩) ∧
      _load_dataset (.ok []) ((_load_dataset (.error "boom") ⟨none⟩).2)
        = (.ok [], ⟨some []⟩)) :=
  ⟨rfl, load_dataset_cache_spec [] specDataset "boom" ⟨some specDataset⟩
    (.error "boom") rfl⟩

/-- C9: on an unchanged dataset (a populated cache), repeated calls of
`count_by_emotion` with the same emotion return identical results, and
repeated calls of `analyze_emotion_distribution` return identical results,
whatever each call's fetch would have produced; `get_sample` is exempt
(its output depends on the random draw, modelled as the index-list input). -/
theorem idempotence_spec (ds : Dataset) (e : String)
    (fetch fetch' : Except String Dataset) (st : CacheState)
    (h : st.DATASET = some ds) :
    (run_count_by_emotion fetch st e).1
      = (run_count_by_emotion fetch' (run_count_by_emotion fetch st e).2 e).1 ∧
    (run_analyze fetch st).1 = (run_analyze fetch' (run_analyze fetch st).2).1 := by
  obtain ⟨o⟩ := st
  simp only at h
  subst h
  cases hve : validateEmotion e <;>
    simp [run_count_by_emotion, run_analyze, _load_dataset, hve]

/-- Witness for C9: repeated calls on a populated cache at the
specification's concrete dataset, with differing fetch outcomes. -/
theorem idempotence_spec_witness :
    (CacheState.mk (some specDataset)).DATASET = some specDataset ∧
      ((run_count_by_emotion (.error "boom") ⟨some specDataset⟩ "joy").1
        = (run_count_by_emotion (.ok [])
            ((run_count_by_emotion (.error "boom") ⟨some specDataset⟩ "joy").2)
            "joy").1 ∧
      (run_analyze (.error "boom") ⟨some specDataset⟩).1
        = (run_analyze (.ok [])
            ((run_analyze (.error "boom") ⟨some specDataset⟩).2)).1) :=
  ⟨rfl, idempotence_spec specDataset "joy" (.error "boom") (.ok [])
    ⟨some specDataset⟩ rfl⟩

/-- C5: every operation's result is delivered through the normal result
channel, either a success or a structured error payload — never an unhandled
fault and never partial results alongside an error (an `Except` value is one
or the other). An internal unknown-label fault makes
`analyze_emotion_distribution` return an error (it succeeds exactly on
datasets whose labels are all valid), and a cache-load failure surfaces as
each tool's structured `Failed to ...` error payload. -/
theorem error_boundary_spec (ds : Dataset) (q : String) (lim : Nat)
    (indices : List Nat) (e : EmotionType) (m : String) :
    ((∃ r, analyze_emotion_distribution ds = .ok r) ∨
      (∃ msg, analyze_emotion_distribution ds = .error msg)) ∧
    ((∃ r, get_sample ds indices = .ok r) ∨
      (∃ msg, get_sample ds indices = .error msg)) ∧
    ((∃ r, search_text ds q lim = .ok r) ∨
      (∃ msg, search_text ds q lim = .error msg)) ∧
    ((∃ r, count_by_emotion ds e.str = .ok r) ∨
      (∃ msg, count_by_emotion ds e.str = .error msg)) ∧
    ((∃ r, analyze_emotion_distribution ds = .ok r) ↔ ValidLabels ds) ∧
    (run_count_by_emotion (.error m) ⟨none⟩ e.str).1
      = .error ("Failed to count by emotion: " ++ m) ∧
    (run_analyze (.error m) ⟨none⟩).1
      = .error ("Failed to analyze distribution: " ++ m) := by
  refine ⟨except_ok_or_error _, except_ok_or_error _, except_ok_or_error _,
    except_ok_or_error _, analyze_ok_iff ds, ?_, rfl⟩
  simp [run_count_by_emotion, validateEmotion_str, _load_dataset]

/-- Witness for C5: the error-boundary facts at the specification's concrete
dataset and a failing fetch. -/
theorem error_boundary_spec_witness :
    ((∃ r, analyze_emotion_distribution specDataset = .ok r) ↔
      ValidLabels specDataset) ∧
    (run_count_by_emotion (.error "boom") ⟨none⟩ EmotionType.joy.str).1
      = .error ("Failed to count by emotion: " ++ "boom") := by
  have h := error_boundary_spec specDataset "x" 1 [0] EmotionType.joy "boom"
  exact ⟨h.2.2.2.2.1, h.2.2.2.2.2.1⟩

/-- C6: parameter constraints are enforced before any data access:
`get_sample` rejects `n = 0` and `n = 101` but accepts `n = 1` and
`n = 100`; `search_text` rejects a query that is empty after trimming and a
201-character query while accepting queries of 1–200 trimmed characters and
limits in `[1, 100]`; `count_by_emotion` rejects exactly the emotion strings
outside the six-name set. Rejection leaves the cache state untouched and
consults no data. -/
theorem validation_spec :
    (validateN 0 = false ∧ validateN 101 = false ∧ validateN 1 = true ∧
      validateN 100 = true) ∧
    (validateQuery "" = none ∧
      validateQuery (String.mk (List.replicate 201 'x')) = none) ∧
    (∀ q : String, 1 ≤ (pyStrip q).length → (pyStrip q).length ≤ 200 →
      validateQuery q = some (pyStrip q)) ∧
    (∀ lim : Int, 1 ≤ lim → lim ≤ 100 → validateLimit lim = true) ∧
    (∀ s : String, validateEmotion s = none ↔
      s ∉ (["sadness", "joy", "love", "anger", "fear", "surprise"] :
        List String)) ∧
    (∀ (fetch : Except String Dataset) (st : CacheState) (indices : List Nat),
      run_get_sample fetch st 0 indices = (.error "Validation Error: n", st) ∧
      run_get_sample fetch st 101 indices = (.error "Validation Error: n", st)) ∧
    (∀ (fetch : Except String Dataset) (st : CacheState) (lim : Int),
      run_search_text fetch st "" lim = (.error "Validation Error: query", st)) := by
  refine ⟨by decide, ⟨by decide, by decide⟩, ?_, ?_, ?_, ?_, ?_⟩
  · intro q h1 h2
    simp [validateQuery, h1, h2]
  · intro lim h1 h2
    simp [validateLimit, h1, h2]
  · intro s
    simp only [validateEmotion]
    split_ifs with h1 h2 h3 h4 h5 h6 <;> simp_all
  · exact fun fetch st indices => ⟨rfl, rfl⟩
  · exact fun fetch st lim => rfl

/-- Witness for C6: the acceptance clauses discharged at concrete inputs
(`" hi "` trims to a 2-character query; limit 10). -/
theorem validation_spec_witness :
    (1 ≤ (pyStrip " hi ").length ∧ (pyStrip " hi ").length ≤ 200 ∧
      validateQuery " hi " = some (pyStrip " hi ")) ∧
    (1 ≤ (10 : Int) ∧ (10 : Int) ≤ 100 ∧ validateLimit 10 = true) :=
  ⟨⟨by decide, by decide, validation_spec.2.2.1 " hi " (by decide) (by decide)⟩,
    ⟨by decide, by decide, validation_spec.2.2.2.1 10 (by decide) (by decide)⟩⟩

/-- Witness for C8: the partition property at the specification's concrete
four-record dataset. -/
theorem count_partition_spec_witness :
    ValidLabels specDataset ∧
      ∃ res : EmotionType → CountResult,
        (∀ e, count_by_emotion specDataset e.str = .ok (res e)) ∧
        (EmotionType.all.map fun e => (res e).count).sum = specDataset.length ∧
        ∀ e, (res e).total = specDataset.length :=
  ⟨by decide, count_partition_spec specDataset (by decide)⟩

end EmotionServer
